import Mathlib

/-!
Verification of `src/server.py` of WebCanevasRecorder: a local static file
server built on CPython's `http.server`. The file defines one subclass,
`CORSRequestHandler(SimpleHTTPRequestHandler)`, whose only override is
`end_headers`, and module-level code that prints three startup lines, binds
`HTTPServer(('localhost', 8000), CORSRequestHandler)`, and runs
`serve_forever()` inside `try/except KeyboardInterrupt`.

The embedding below models:
  * the header buffer discipline of `BaseHTTPRequestHandler`
    (`send_header` appends to a buffer; `end_headers` terminates the block),
    with the `end_headers` override of `src/server.py`;
  * the inherited per-request behaviour of `SimpleHTTPRequestHandler`
    (`translate_path`, `send_head`, `do_GET`, `do_HEAD`, `send_error`,
    method dispatch of `handle_one_request`), which `server.py` delegates to;
  * the module-level process behaviour of `server.py` as an event trace
    (prints, bind, serving, interrupt, exit).
-/

namespace WebCanevasRecorder

/-- One HTTP response header line: a name and a value. -/
structure Header where
  name : String
  value : String
deriving DecidableEq

/-- An HTTP response as the handler produces it: status code, the emitted
header block (in emission order), and the body bytes. -/
structure Response where
  status : Nat
  headers : List Header
  body : String
deriving DecidableEq

/-- `BaseHTTPRequestHandler.send_header`: appends one header line to the
handler's header buffer. -/
def send_header (buffer : List Header) (n v : String) : List Header :=
  buffer ++ [⟨n, v⟩]

/-- The three fixed headers that `CORSRequestHandler.end_headers` sends, in
the order the source sends them (src/server.py lines 6-8). -/
def corsHeaders : List Header :=
  [⟨"Access-Control-Allow-Origin", "*"⟩,
   ⟨"Access-Control-Allow-Methods", "GET"⟩,
   ⟨"Cache-Control", "no-store, no-cache, must-revalidate"⟩]

/-- `CORSRequestHandler.end_headers` (src/server.py lines 5-9): sends the
three fixed headers with `send_header`, then calls the superclass
`end_headers`, which terminates the header block; the buffered list at that
point is the response's header block. -/
def end_headers (buffer : List Header) : List Header :=
  send_header
    (send_header
      (send_header buffer "Access-Control-Allow-Origin" "*")
      "Access-Control-Allow-Methods" "GET")
    "Cache-Control" "no-store, no-cache, must-revalidate"

/-- The `Server:` header value sent by `send_response`
(`version_string()` of the Python handler). Its exact text is irrelevant to
the claims. -/
def server_version_string : String := "SimpleHTTP/0.6 Python/3"

/-- `BaseHTTPRequestHandler.send_response`: logs, sends the status line, and
buffers the `Server` and `Date` headers. `date` is the request-time
`date_time_string()`, passed as a parameter since it varies per request. -/
def send_response_buffer (date : String) : List Header :=
  send_header (send_header [] "Server" server_version_string) "Date" date

/-- `BaseHTTPRequestHandler.error_content_type`
(`DEFAULT_ERROR_CONTENT_TYPE`). -/
def error_content_type : String := "text/html;charset=utf-8"

/-- The error body produced from `DEFAULT_ERROR_MESSAGE`. The exact HTML
template is abbreviated; the claims depend only on statuses and headers. -/
def error_body (code : Nat) (message : String) : String :=
  "<html><body>Error " ++ toString code ++ ": " ++ message ++ "</body></html>"

/-- The headers `BaseHTTPRequestHandler.send_error` buffers before calling
`end_headers`: those of `send_response`, then `Connection: close`,
`Content-Type`, and `Content-Length` of the error body. -/
def error_buffer (date : String) (body : String) : List Header :=
  send_header
    (send_header
      (send_header (send_response_buffer date) "Connection" "close")
      "Content-Type" error_content_type)
    "Content-Length" (toString body.length)

/-- `BaseHTTPRequestHandler.send_error code message`: sends an error status,
the buffered error headers, finalizes the block with `end_headers` (the
override of src/server.py), and writes the error body. -/
def send_error (date : String) (code : Nat) (message : String) : Response :=
  { status := code
    headers := end_headers (error_buffer date (error_body code message))
    body := error_body code message }

/-! ### Path resolution (`SimpleHTTPRequestHandler.translate_path`)

The Python code splits off query and fragment, unquotes, applies
`posixpath.normpath`, then walks the components, skipping `''`, `.` and
`..`, joining the rest onto the serving directory. Percent-escapes are not
modelled: the model covers paths without them. Strings are processed as
their character lists so every definition evaluates by kernel reduction. -/

/-- The characters of `s` before the first occurrence of `c`
(`s.split(c, 1)[0]`). -/
def upToChar (c : Char) : List Char → List Char
  | [] => []
  | x :: xs => if x = c then [] else x :: upToChar c xs

/-- `s.split(c)` on character lists: splits at every occurrence of `c`.
Always returns a nonempty list of (possibly empty) components. -/
def splitOnChar (c : Char) : List Char → List (List Char)
  | [] => [[]]
  | x :: xs =>
    let r := splitOnChar c xs
    if x = c then [] :: r
    else
      match r with
      | [] => [[x]]
      | y :: ys => (x :: y) :: ys

/-- `posixpath.normpath` on the component list of a path:
drops `''` and `.` components, and makes `..` pop the previous component
except when there is nothing to pop (a leading `..` of a relative path is
kept; a leading `..` of an absolute path is dropped). -/
def normpath_comps (initial_slashes : Bool) (comps : List String) : List String :=
  comps.foldl
    (fun acc comp =>
      if comp = "" ∨ comp = "." then acc
      else if comp ≠ ".." ∨ (¬ initial_slashes ∧ acc = []) ∨ acc.getLast? = some ".." then
        acc ++ [comp]
      else if acc ≠ [] then acc.dropLast
      else acc)
    []

/-- The `/`-separated words of a raw request path, query and fragment
removed. -/
def path_words (path : String) : List String :=
  (splitOnChar '/' (upToChar '#' (upToChar '?' path.data))).map String.mk

/-- Whether the raw path begins with a slash (after removing query and
fragment), i.e. whether `normpath` sees an absolute path. -/
def path_is_absolute (path : String) : Bool :=
  match upToChar '#' (upToChar '?' path.data) with
  | [] => false
  | x :: _ => x = '/'

/-- Whether the raw request path, query and fragment removed, ends in `/`.
This is both the `trailing_slash` that `translate_path` re-appends to its
result and the `parts.path.endswith('/')` of the directory-redirect check of
`send_head` (the `rstrip()` of the former is not modelled: the model covers
paths without trailing whitespace). -/
def path_ends_slash (path : String) : Bool :=
  match (upToChar '#' (upToChar '?' path.data)).getLast? with
  | some c => c = '/'
  | none => false

/-- `SimpleHTTPRequestHandler.translate_path`: resolves a raw request path
to a filesystem path (a list of components) under the serving directory
`docroot`. Query and fragment are dropped, the path is normalized, and every
component that is `''`, `.` or `..` is skipped; the remaining words are
joined onto `docroot`. The trailing slash the Python function re-appends to
the returned string is carried separately by `path_ends_slash`, since the
result here is a component list. -/
def translate_path (docroot : List String) (path : String) : List String :=
  let words := normpath_comps (path_is_absolute path) (path_words path)
  docroot ++ words.filter (fun w => !(w == "" || w == "." || w == ".."))

/-! ### File serving (`SimpleHTTPRequestHandler.send_head`, `do_GET`,
`do_HEAD`, and the method dispatch of `handle_one_request`)

The filesystem is a finite list of regular files, each an absolute path
(component list) with contents and a modification time. Directories are not
representable, so the `os.path.isdir` branch of `send_head` — the 301
redirect of a directory path without trailing slash, the
`index.html`/`index.htm` lookup, and `list_directory` — is not modelled:
the model covers requests whose resolved path names no existing directory.
On that scope `isdir` is false and `send_head` reduces to the trailing-slash
check and the `open`: a trailing-slash path and a path matching no file
entry both take the `send_error(404, "File not found")` branch. No claim's
verdict depends on directory responses: the header claims are about buffer
shapes shared by every response, and the traversal claim is settled by
`translate_path`, through which every filesystem access of `send_head`
(the resolved path and its `index.html`/`index.htm` children) goes. -/

/-- A regular file: absolute path as components from the filesystem root,
contents, and `Last-Modified` time string. -/
structure FileEntry where
  path : List String
  contents : String
  mtime : String
deriving DecidableEq

/-- The filesystem visible to the server. -/
structure Fs where
  files : List FileEntry
deriving DecidableEq

/-- `guess_type`: the `Content-type` inferred from the path extension. The
real table is the `mimetypes` registry; the claims never inspect the value,
so a few common entries suffice. -/
def guess_type (path : String) : String :=
  if path.endsWith ".html" then "text/html"
  else if path.endsWith ".js" then "text/javascript"
  else if path.endsWith ".css" then "text/css"
  else if path.endsWith ".json" then "application/json"
  else "application/octet-stream"

/-- The headers `send_head` buffers for a found file before `end_headers`:
those of `send_response(200)`, then `Content-type`, `Content-Length`,
`Last-Modified`. -/
def ok_buffer (date ctype : String) (clen : Nat) (mtime : String) : List Header :=
  send_header
    (send_header
      (send_header (send_response_buffer date) "Content-type" ctype)
      "Content-Length" (toString clen))
    "Last-Modified" mtime

/-- `SimpleHTTPRequestHandler.send_head` on the directory-free scope:
translate the path (`isdir` is false there, skipping the redirect, index
lookup and listing); a translated path with a trailing slash is answered
`send_error(404, "File not found")` without opening anything (Issue17324);
otherwise open the file — on success send `200` with the file headers, on
an `OSError` `send_error(404, "File not found")`. -/
def send_head (fs : Fs) (docroot : List String) (date : String) (path : String) : Response :=
  let resolved := translate_path docroot path
  if path_ends_slash path then send_error date 404 "File not found"
  else
    match fs.files.find? (fun f => decide (f.path = resolved)) with
    | some f =>
      { status := 200
        headers := end_headers (ok_buffer date (guess_type path) f.contents.length f.mtime)
        body := f.contents }
    | none => send_error date 404 "File not found"

/-- `SimpleHTTPRequestHandler.do_GET`: `send_head` then `copyfile` streams
the body; the model's `send_head` already carries the body. -/
def do_GET (fs : Fs) (docroot : List String) (date : String) (path : String) : Response :=
  send_head fs docroot date path

/-- `SimpleHTTPRequestHandler.do_HEAD`: `send_head` without the body. -/
def do_HEAD (fs : Fs) (docroot : List String) (date : String) (path : String) : Response :=
  { send_head fs docroot date path with body := "" }

/-- The outcome of parsing one request line in
`BaseHTTPRequestHandler.handle_one_request`: either a method and a raw path,
or a malformed request line. -/
inductive ReqParse where
  | ok (method : String) (path : String)
  | bad (line : String)
deriving DecidableEq

/-- `BaseHTTPRequestHandler.handle_one_request` composed with the handler
class of src/server.py: a malformed request line is answered
`send_error(400, ...)`; a request whose method has no `do_<METHOD>` on
`SimpleHTTPRequestHandler` (anything but GET and HEAD) is answered
`send_error(501, ...)`; GET and HEAD go to `do_GET` / `do_HEAD`. -/
def handle_one_request (fs : Fs) (docroot : List String) (date : String) (req : ReqParse) : Response :=
  match req with
  | .bad line => send_error date 400 ("Bad request syntax (" ++ line ++ ")")
  | .ok method path =>
    if method = "GET" then do_GET fs docroot date path
    else if method = "HEAD" then do_HEAD fs docroot date path
    else send_error date 501 ("Unsupported method (" ++ method ++ ")")

/-- The header lines the inherited default behaviour has buffered for a
request at the moment `end_headers` runs, i.e. the response's header block
with the three injected headers removed from the end. Mirrors the branch
structure of `handle_one_request`. -/
def default_sent_headers (fs : Fs) (docroot : List String) (date : String) (req : ReqParse) : List Header :=
  match req with
  | .bad line => error_buffer date (error_body 400 ("Bad request syntax (" ++ line ++ ")"))
  | .ok method path =>
    if method = "GET" ∨ method = "HEAD" then
      if path_ends_slash path then error_buffer date (error_body 404 "File not found")
      else
        match fs.files.find? (fun f => decide (f.path = translate_path docroot path)) with
        | some f => ok_buffer date (guess_type path) f.contents.length f.mtime
        | none => error_buffer date (error_body 404 "File not found")
    else error_buffer date (error_body 501 ("Unsupported method (" ++ method ++ ")"))

/-! ### Module-level process behaviour of src/server.py

Lines 11-21 of the source: three `print` calls, the `HTTPServer` bind, and
`serve_forever()` inside `try/except KeyboardInterrupt` with
`print("\nServeur arrêté"); sys.exit(0)` in the handler. The execution is
modelled as a list of observable events. -/

/-- `port = 8000` (src/server.py line 11). -/
def port : Nat := 8000

/-- The host constant of the `HTTPServer(('localhost', port), ...)` call. -/
def host : String := "localhost"

/-- The address the listener is bound to. -/
def server_address : String × Nat := (host, port)

/-- The three lines printed at startup (src/server.py lines 12-14); line one
is the f-string with `port` interpolated. -/
def startupLines : List String :=
  ["Serveur démarré sur http://localhost:" ++ toString port,
   "Ouvrez votre navigateur et accédez à http://localhost:8000/demo/",
   "Appuyez sur Ctrl+C pour arrêter le serveur"]

/-- The line printed by the `KeyboardInterrupt` handler
(src/server.py line 20). -/
def shutdown_message : String := "\nServeur arrêté"

/-- Observable process events: a line printed to standard output, an attempt
to bind the listener at an address, a successful bind, one request served by
the loop, a `sys.exit` with its code, and a fatal termination by an uncaught
exception (the runtime default: traceback, nonzero exit). -/
inductive Ev where
  | out (line : String)
  | bindAttempt (addr : String × Nat)
  | bound
  | served
  | exit (code : Nat)
  | fatal
deriving DecidableEq

/-- The module-level execution trace of src/server.py, observed after
`served` requests have been handled. `argv` and `env` are the process
arguments and environment, which the program never reads. `bindOk` is
whether the bind inside `HTTPServer(...)` succeeds; `interrupted` is whether
a `KeyboardInterrupt` is delivered inside `serve_forever` after those
requests. The prints come first, unconditionally; a failed bind raises
`OSError`, which no handler catches (the `except` clause catches only
`KeyboardInterrupt`), terminating the process with the runtime default
(`Ev.fatal`). On an interrupt the handler prints the shutdown line and calls
`sys.exit(0)`. When `bindOk` holds and no interrupt has arrived, the trace
is the prefix observed so far: `serve_forever` has not returned. -/
def main_events (argv : List String) (env : List (String × String))
    (bindOk : Bool) (served : Nat) (interrupted : Bool) : List Ev :=
  (startupLines.map Ev.out) ++ [Ev.bindAttempt server_address] ++
    (if bindOk then
      Ev.bound :: (List.replicate served Ev.served ++
        (if interrupted then [Ev.out shutdown_message, Ev.exit 0] else []))
    else [Ev.fatal])

/-- The printed line of an event, if it is a print. -/
def out_line (e : Ev) : Option String :=
  match e with | .out s => some s | _ => none

/-- The exit code of an event, if it is a `sys.exit`. -/
def exit_code (e : Ev) : Option Nat :=
  match e with | .exit c => some c | _ => none

/-- The lines printed to standard output along a trace, in order. -/
def stdout_of (es : List Ev) : List String :=
  es.filterMap out_line

/-- The `sys.exit` codes along a trace, in order. -/
def exit_codes (es : List Ev) : List Nat :=
  es.filterMap exit_code

/-- Whether an event terminates the process (a `sys.exit` or a fatal
uncaught exception). -/
def terminates (e : Ev) : Bool :=
  match e with
  | .exit _ => true
  | .fatal => true
  | _ => false

/-- Whether a listening socket is still open after the trace: one is open
once `Ev.bound` has happened, and the operating system closes every file
descriptor of the process when it terminates. -/
def socket_open_at_end (es : List Ev) : Bool :=
  es.contains Ev.bound && !(es.any terminates)

/-- `BaseServer.serve_forever`, one request per iteration: the loop runs
`while not self.__shutdown_request`; it returns normally within `n`
iterations exactly when the shutdown flag was set during one of them.
`shutdown_requested i` is the flag's value at iteration `i`. -/
def serve_forever_returned (shutdown_requested : Nat → Bool) (n : Nat) : Bool :=
  (List.range n).any shutdown_requested

/-- src/server.py never calls `shutdown()`, the only setter of the shutdown
flag: the flag is constantly false. -/
def no_shutdown_request : Nat → Bool := fun _ => false

/-- A small concrete filesystem used to exercise the model: the serving
directory is `/srv`, holding `index.html` and `demo/index.html`. -/
def demoFs : Fs :=
  ⟨[⟨["srv", "index.html"], "hello", "mt"⟩,
    ⟨["srv", "demo", "index.html"], "<html>demo</html>", "mt"⟩]⟩

/-! ### Helper lemmas -/

/-- `end_headers` appends exactly the three fixed headers, in order, to the
buffer. -/
theorem end_headers_eq (buffer : List Header) :
    end_headers buffer = buffer ++ corsHeaders := by
  simp [end_headers, send_header, corsHeaders]

/-- The response's header block always splits as the default buffered
headers followed by the three fixed headers. -/
theorem headers_split (fs : Fs) (docroot : List String) (date : String) (req : ReqParse) :
    (handle_one_request fs docroot date req).headers =
      default_sent_headers fs docroot date req ++ corsHeaders := by
  cases req with
  | bad line =>
    simpa [handle_one_request, default_sent_headers, send_error] using
      end_headers_eq (error_buffer date (error_body 400 ("Bad request syntax (" ++ line ++ ")")))
  | ok m p =>
    by_cases hg : m = "GET"
    · subst hg
      by_cases hs : path_ends_slash p
      · simp [handle_one_request, default_sent_headers, do_GET, send_head, send_error, hs,
          end_headers_eq]
      · cases hf : fs.files.find? (fun f => decide (f.path = translate_path docroot p)) with
        | some f =>
          simp [handle_one_request, default_sent_headers, do_GET, send_head, hs, hf,
            end_headers_eq]
        | none =>
          simp [handle_one_request, default_sent_headers, do_GET, send_head, send_error, hs, hf,
            end_headers_eq]
    · by_cases hh : m = "HEAD"
      · subst hh
        by_cases hs : path_ends_slash p
        · simp [handle_one_request, default_sent_headers, do_HEAD, send_head, send_error, hg, hs,
            end_headers_eq]
        · cases hf : fs.files.find? (fun f => decide (f.path = translate_path docroot p)) with
          | some f =>
            simp [handle_one_request, default_sent_headers, do_HEAD, send_head, hg, hs, hf,
              end_headers_eq]
          | none =>
            simp [handle_one_request, default_sent_headers, do_HEAD, send_head, send_error, hg,
              hs, hf, end_headers_eq]
      · simp [handle_one_request, default_sent_headers, hg, hh, send_error, end_headers_eq]

/-- Every default buffered block is an error buffer or a success buffer. -/
theorem default_shape (fs : Fs) (docroot : List String) (date : String) (req : ReqParse) :
    (∃ body, default_sent_headers fs docroot date req = error_buffer date body) ∨
    (∃ ctype clen mtime, default_sent_headers fs docroot date req = ok_buffer date ctype clen mtime) := by
  cases req with
  | bad line => exact Or.inl ⟨_, rfl⟩
  | ok m p =>
    by_cases hgh : m = "GET" ∨ m = "HEAD"
    · by_cases hs : path_ends_slash p
      · exact Or.inl ⟨error_body 404 "File not found", by simp [default_sent_headers, hgh, hs]⟩
      · cases hf : fs.files.find? (fun f => decide (f.path = translate_path docroot p)) with
        | some f =>
          exact Or.inr ⟨guess_type p, f.contents.length, f.mtime,
            by simp [default_sent_headers, hgh, hs, hf]⟩
        | none =>
          exact Or.inl ⟨error_body 404 "File not found",
            by simp [default_sent_headers, hgh, hs, hf]⟩
    · exact Or.inl ⟨error_body 501 ("Unsupported method (" ++ m ++ ")"),
        by simp [default_sent_headers, hgh]⟩

/-- `filterMap` of a replicated element that maps to `none` is empty. -/
theorem filterMap_replicate_none {α β : Type} (f : α → Option β) (a : α)
    (hf : f a = none) (n : Nat) : (List.replicate n a).filterMap f = [] := by
  induction n with
  | zero => rfl
  | succ n ih => simp [List.replicate_succ, List.filterMap_cons, hf, ih]

/-- `any` of a replicated element on which the predicate is false is false. -/
theorem any_replicate_false {α : Type} (p : α → Bool) (a : α)
    (hp : p a = false) (n : Nat) : (List.replicate n a).any p = false := by
  induction n with
  | zero => rfl
  | succ n ih => simp [List.replicate_succ, hp, ih]

/-- Dropping the length of the left part of an append leaves the right part. -/
theorem drop_length_append {α : Type} (l₁ l₂ : List α) :
    (l₁ ++ l₂).drop l₁.length = l₂ := by
  induction l₁ with
  | nil => rfl
  | cons a l ih => simp [ih]

/-- No error-buffer header is named `Access-Control-Allow-Origin`. -/
theorem error_filter_origin (date body : String) :
    (error_buffer date body).filter (fun h => h.name == "Access-Control-Allow-Origin") = [] := rfl

/-- No error-buffer header is named `Access-Control-Allow-Methods`. -/
theorem error_filter_methods (date body : String) :
    (error_buffer date body).filter (fun h => h.name == "Access-Control-Allow-Methods") = [] := rfl

/-- No error-buffer header is named `Cache-Control`. -/
theorem error_filter_cache (date body : String) :
    (error_buffer date body).filter (fun h => h.name == "Cache-Control") = [] := rfl

/-- No success-buffer header is named `Access-Control-Allow-Origin`. -/
theorem ok_filter_origin (date ctype mtime : String) (clen : Nat) :
    (ok_buffer date ctype clen mtime).filter (fun h => h.name == "Access-Control-Allow-Origin") = [] := rfl

/-- No success-buffer header is named `Access-Control-Allow-Methods`. -/
theorem ok_filter_methods (date ctype mtime : String) (clen : Nat) :
    (ok_buffer date ctype clen mtime).filter (fun h => h.name == "Access-Control-Allow-Methods") = [] := rfl

/-- No success-buffer header is named `Cache-Control`. -/
theorem ok_filter_cache (date ctype mtime : String) (clen : Nat) :
    (ok_buffer date ctype clen mtime).filter (fun h => h.name == "Cache-Control") = [] := rfl

/-- The traversal-free decomposition of every resolved path: `translate_path`
always yields the serving directory followed by words none of which is `..`. -/
theorem translate_path_under_root (docroot : List String) (reqpath : String) :
    ∃ ws, translate_path docroot reqpath = docroot ++ ws ∧ ".." ∉ ws := by
  refine ⟨_, rfl, ?_⟩
  intro hm
  exact absurd (List.mem_filter.mp hm).2 (by decide)

/-! ### The claims -/

/-- C1: every response the server emits — every successful GET to an existing
file and every error response — carries the three fixed headers
`Access-Control-Allow-Origin: *`, `Access-Control-Allow-Methods: GET` and
`Cache-Control: no-store, no-cache, must-revalidate` in its header block. -/
theorem C1_every_response_has_fixed_headers (fs : Fs) (docroot : List String)
    (date : String) (req : ReqParse) :
    (⟨"Access-Control-Allow-Origin", "*"⟩ : Header) ∈ (handle_one_request fs docroot date req).headers ∧
    (⟨"Access-Control-Allow-Methods", "GET"⟩ : Header) ∈ (handle_one_request fs docroot date req).headers ∧
    (⟨"Cache-Control", "no-store, no-cache, must-revalidate"⟩ : Header) ∈
      (handle_one_request fs docroot date req).headers := by
  refine ⟨?_, ?_, ?_⟩ <;> rw [headers_split] <;>
    exact List.mem_append.mpr (Or.inr (by decide))

/-- C2 (counterexample): the claim requires every request whose path contains
a traversal sequence to be answered with a client-error status; but for the
path `/../index.html` against a filesystem where `index.html` exists in the
serving directory, the dot-segments are stripped and the server answers 200
with the in-root file, not a 4xx status. -/
theorem C2_counterexample :
    ((path_words "/../index.html").contains ".." = true) ∧
    (do_GET demoFs ["srv"] "mt" "/../index.html").status = 200 ∧
    (do_GET demoFs ["srv"] "mt" "/../index.html").body = "hello" ∧
    ¬(400 ≤ (do_GET demoFs ["srv"] "mt" "/../index.html").status ∧
      (do_GET demoFs ["srv"] "mt" "/../index.html").status ≤ 499) := by
  decide

/-- C2 (amended): for every request whose path contains traversal sequences,
the server never returns the contents of a file outside the document root:
the resolved path always lies under the serving directory because `''`, `.`
and `..` components are stripped, so every file the handler finds and opens
at the resolved path lies under the document root. A client-error status is
not guaranteed (the stripped path may name an existing in-root file, served
with status 200, as the counterexample shows). -/
theorem C2_amended_never_escapes_root (fs : Fs) (docroot : List String)
    (reqpath : String) (h : (path_words reqpath).contains ".." = true) :
    (∃ ws, translate_path docroot reqpath = docroot ++ ws ∧ ".." ∉ ws) ∧
    (∀ f, fs.files.find? (fun g => decide (g.path = translate_path docroot reqpath)) = some f →
      ∃ ws, f.path = docroot ++ ws ∧ ".." ∉ ws) := by
  refine ⟨translate_path_under_root docroot reqpath, ?_⟩
  intro f hf
  have hp := List.find?_some hf
  have hpath : f.path = translate_path docroot reqpath := of_decide_eq_true hp
  rw [hpath]
  exact translate_path_under_root docroot reqpath

/-- C2 (witness for the amended claim): the no-escape property at the
concrete traversal request `/../index.html` against the demo filesystem. -/
theorem C2_amended_witness :
    ((path_words "/../index.html").contains ".." = true) ∧
    (∃ ws, translate_path ["srv"] "/../index.html" = ["srv"] ++ ws ∧ ".." ∉ ws) :=
  ⟨by decide,
    (C2_amended_never_escapes_root demoFs ["srv"] "/../index.html" (by decide)).1⟩

/-- C3: when a `KeyboardInterrupt` arrives while `serve_forever` is running,
the process prints the shutdown acknowledgment as its last line, performs
`sys.exit(0)` (exit status 0), and no listening socket remains open after
the process has terminated. -/
theorem C3_interrupt_clean_shutdown (argv : List String)
    (env : List (String × String)) (served : Nat) :
    stdout_of (main_events argv env true served true) = startupLines ++ [shutdown_message] ∧
    exit_codes (main_events argv env true served true) = [0] ∧
    socket_open_at_end (main_events argv env true served true) = false := by
  refine ⟨?_, ?_, ?_⟩
  · simp [main_events, stdout_of, startupLines, List.filterMap_append, out_line,
      filterMap_replicate_none out_line Ev.served rfl served]
  · simp [main_events, exit_codes, startupLines, List.filterMap_append, exit_code,
      filterMap_replicate_none exit_code Ev.served rfl served]
  · simp [main_events, socket_open_at_end, List.any_append, terminates,
      any_replicate_false terminates Ev.served rfl served]

/-- C4 (counterexample): the claim requires startup printing only after a
successful bind; but in the run where the bind fails, the startup line has
been printed although the listener was never bound. -/
theorem C4_counterexample :
    (Ev.out ("Serveur démarré sur http://localhost:" ++ toString port) ∈
      main_events [] [] false 0 false) ∧
    Ev.bound ∉ main_events [] [] false 0 false := by
  decide

/-- C4 (amended): the process prints the three startup lines (server URL,
`/demo/` usage hint, interrupt-to-stop instruction) unconditionally, before
attempting to bind the listener; they appear as the first events of every
run, whether or not the bind succeeds. -/
theorem C4_amended_prints_before_bind (argv : List String)
    (env : List (String × String)) (bindOk : Bool) (served : Nat) (interrupted : Bool) :
    (main_events argv env bindOk served interrupted).take 4 =
      startupLines.map Ev.out ++ [Ev.bindAttempt server_address] := by
  simp [main_events, startupLines, List.take]

/-- C5: if binding the listener fails, the process terminates fatally (the
`OSError` is caught by no handler) before serving any request: the trace
ends at the fatal termination, contains no served request and no successful
bind, and no `sys.exit` ran. -/
theorem C5_bind_failure_fatal (argv : List String) (env : List (String × String))
    (served : Nat) (interrupted : Bool) :
    main_events argv env false served interrupted =
      startupLines.map Ev.out ++ [Ev.bindAttempt server_address, Ev.fatal] ∧
    Ev.served ∉ main_events argv env false served interrupted ∧
    Ev.bound ∉ main_events argv env false served interrupted ∧
    exit_codes (main_events argv env false served interrupted) = [] := by
  refine ⟨by simp [main_events], ?_, ?_, ?_⟩
  · simp [main_events, startupLines]
  · simp [main_events, startupLines]
  · simp [main_events, exit_codes, startupLines, List.filterMap_append, exit_code]

/-- C6: a GET whose path resolves to no file is answered 404, and that 404
response still carries the three fixed headers. -/
theorem C6_nonexistent_path_404 (fs : Fs) (docroot : List String) (date reqpath : String)
    (h : ∀ f ∈ fs.files, f.path ≠ translate_path docroot reqpath) :
    (do_GET fs docroot date reqpath).status = 404 ∧
    (⟨"Access-Control-Allow-Origin", "*"⟩ : Header) ∈ (do_GET fs docroot date reqpath).headers ∧
    (⟨"Access-Control-Allow-Methods", "GET"⟩ : Header) ∈ (do_GET fs docroot date reqpath).headers ∧
    (⟨"Cache-Control", "no-store, no-cache, must-revalidate"⟩ : Header) ∈
      (do_GET fs docroot date reqpath).headers := by
  have hf : fs.files.find? (fun f => decide (f.path = translate_path docroot reqpath)) = none := by
    rw [List.find?_eq_none]
    intro f hm
    simpa using h f hm
  have he : do_GET fs docroot date reqpath = send_error date 404 "File not found" := by
    simp [do_GET, send_head, hf]
  rw [he]
  refine ⟨rfl, ?_, ?_, ?_⟩ <;>
    · show _ ∈ end_headers _
      rw [end_headers_eq]
      exact List.mem_append.mpr (Or.inr (by decide))

/-- C6 (witness): the nonexistent path `/does-not-exist.xyz` against the
demo filesystem. -/
theorem C6_witness :
    (do_GET demoFs ["srv"] "mt" "/does-not-exist.xyz").status = 404 ∧
    (⟨"Access-Control-Allow-Origin", "*"⟩ : Header) ∈
      (do_GET demoFs ["srv"] "mt" "/does-not-exist.xyz").headers ∧
    (⟨"Access-Control-Allow-Methods", "GET"⟩ : Header) ∈
      (do_GET demoFs ["srv"] "mt" "/does-not-exist.xyz").headers ∧
    (⟨"Cache-Control", "no-store, no-cache, must-revalidate"⟩ : Header) ∈
      (do_GET demoFs ["srv"] "mt" "/does-not-exist.xyz").headers :=
  C6_nonexistent_path_404 demoFs ["srv"] "mt" "/does-not-exist.xyz" (by decide)

/-- C7: in every response's header block, the three injected headers appear
after all the headers the default file-serving behaviour buffered for that
response: the block is exactly the default buffer followed by the three. -/
theorem C7_fixed_headers_appended_after_defaults (fs : Fs) (docroot : List String)
    (date : String) (req : ReqParse) :
    (handle_one_request fs docroot date req).headers =
      default_sent_headers fs docroot date req ++ corsHeaders :=
  headers_split fs docroot date req

/-- C8: the host and port are the fixed constants `localhost` and `8000`:
the bind attempt of every run targets `("localhost", 8000)`, and the whole
trace is independent of the process arguments and environment, which the
program never reads. -/
theorem C8_fixed_host_port_no_cli (argv argv2 : List String)
    (env env2 : List (String × String)) (bindOk : Bool) (served : Nat) (interrupted : Bool) :
    server_address = ("localhost", 8000) ∧
    Ev.bindAttempt ("localhost", 8000) ∈ main_events argv env bindOk served interrupted ∧
    main_events argv env bindOk served interrupted =
      main_events argv2 env2 bindOk served interrupted := by
  refine ⟨rfl, ?_, rfl⟩
  simp [main_events, server_address, host, port]

/-- C9: the serving loop never returns normally — with the shutdown flag
never set (this program never calls `shutdown()`), `serve_forever` has not
returned after any number of iterations, and an uninterrupted run performs
no `sys.exit` and no fatal termination, however many requests it serves. -/
theorem C9_serve_loop_never_returns (n : Nat) (argv : List String)
    (env : List (String × String)) (served : Nat) :
    serve_forever_returned no_shutdown_request n = false ∧
    exit_codes (main_events argv env true served false) = [] ∧
    Ev.fatal ∉ main_events argv env true served false := by
  refine ⟨?_, ?_, ?_⟩
  · simp [serve_forever_returned, no_shutdown_request]
  · simp [main_events, exit_codes, startupLines, List.filterMap_append, exit_code,
      filterMap_replicate_none exit_code Ev.served rfl served]
  · simp [main_events, startupLines, List.mem_replicate]

/-- C10: header injection is unconditional on method and status — for every
response the handler finalizes, including a POST answered 501, the header
block contains exactly one copy of each fixed header with its constant
value, and the three stand at the end of the block in the fixed order. -/
theorem C10_header_injection_unconditional (fs : Fs) (docroot : List String)
    (date : String) (req : ReqParse) (postPath : String) :
    ((handle_one_request fs docroot date req).headers.filter
        (fun h => h.name == "Access-Control-Allow-Origin") =
      [⟨"Access-Control-Allow-Origin", "*"⟩]) ∧
    ((handle_one_request fs docroot date req).headers.filter
        (fun h => h.name == "Access-Control-Allow-Methods") =
      [⟨"Access-Control-Allow-Methods", "GET"⟩]) ∧
    ((handle_one_request fs docroot date req).headers.filter
        (fun h => h.name == "Cache-Control") =
      [⟨"Cache-Control", "no-store, no-cache, must-revalidate"⟩]) ∧
    ((handle_one_request fs docroot date req).headers.drop
        ((handle_one_request fs docroot date req).headers.length - 3) = corsHeaders) ∧
    (handle_one_request fs docroot date (.ok "POST" postPath)).status = 501 := by
  refine ⟨?_, ?_, ?_, ?_, rfl⟩
  · rw [headers_split, List.filter_append]
    rcases default_shape fs docroot date req with ⟨body, hb⟩ | ⟨ctype, clen, mtime, hb⟩ <;>
      rw [hb] <;> first
        | rw [error_filter_origin]; rfl
        | rw [ok_filter_origin]; rfl
  · rw [headers_split, List.filter_append]
    rcases default_shape fs docroot date req with ⟨body, hb⟩ | ⟨ctype, clen, mtime, hb⟩ <;>
      rw [hb] <;> first
        | rw [error_filter_methods]; rfl
        | rw [ok_filter_methods]; rfl
  · rw [headers_split, List.filter_append]
    rcases default_shape fs docroot date req with ⟨body, hb⟩ | ⟨ctype, clen, mtime, hb⟩ <;>
      rw [hb] <;> first
        | rw [error_filter_cache]; rfl
        | rw [ok_filter_cache]; rfl
  · rw [headers_split]
    have hlen : (default_sent_headers fs docroot date req ++ corsHeaders).length - 3 =
        (default_sent_headers fs docroot date req).length := by
      simp [corsHeaders]
    rw [hlen, drop_length_append]

end WebCanevasRecorder
